import Mathlib

/-!
Shallow embedding of `src/finsight.py` (FinSight, a Streamlit visual
prototype).  The script is a single top-to-bottom program: a session-state
dictionary holding the current page name, a sidebar radio that writes that
name, a static mock-ratio dictionary, a hardcoded matplotlib bar chart, and
three page renderers dispatched on the page name, followed by a footer.

Rendering side effects (st.markdown, st.success, st.info, st.spinner,
time.sleep, st.button, st.pyplot, ...) are embedded as an ordered list of
`Out` events; the session state is passed explicitly.  Python floats are
embedded as rationals (the program does no float arithmetic, it only stores,
compares against literals and displays them).  Python dicts (insertion
ordered) are embedded as association lists.
-/

/-- Session state of the Streamlit script: the single field `page`
(`st.session_state.page`, a Python string).  `src/finsight.py` lines 126-128. -/
structure SessionState where
  page : String
deriving DecidableEq, Repr

/-- Initialization at lines 127-128: if `page` is absent it is set to
`"Home"`; at process start the session-state dict is empty, so the first run
starts from this state. -/
def initState : SessionState := { page := "Home" }

/-- The options of the sidebar radio, line 148:
`st.radio("Navigation", ["Home", "Analysis", "Help"], key="nav")`. -/
def navOptions : List String := ["Home", "Analysis", "Help"]

/-- Model of the `st.radio` widget of line 148: the widget's value is always
one of its options; the user's input is which option is selected. -/
def navRadio (sel : Fin navOptions.length) : String := navOptions.get sel

/-- Line 149: `st.session_state.page = page`.  A plain assignment: it stores
any string without validation and has no failure path. -/
def setPage (p : String) (st : SessionState) : SessionState := { st with page := p }

/-- Reading `st.session_state.page` (lines 321-325). -/
def getPage (st : SessionState) : String := st.page

/-- Error type the spec assigns to the navigation selector.  No such error
exists in the source; this type only serves to state the spec's contract. -/
inductive NavError where
  | InvalidPage
deriving DecidableEq, Repr

/-- Modelled from the spec (for comparison with `setPage`, which is the
source's behavior): "Input constrained to the fixed three-way enum; any other
value is a programming error (fails with an InvalidPage error)". -/
def setPageChecked (p : String) (st : SessionState) : Except NavError SessionState :=
  if p ∈ navOptions then Except.ok { st with page := p } else Except.error NavError.InvalidPage

/-- One entry of the mock-ratio dictionary, lines 157-169:
`{"value": ..., "status": ..., "description": ...}`. -/
structure RatioData where
  value : ℚ
  status : String
  description : String
deriving DecidableEq, Repr

/-- The `"Liquidity Ratios"` inner dict, lines 159-163. -/
def liquidity_entries : List (String × RatioData) :=
  [("Current Ratio",
    { value := 1.8, status := "healthy",
      description := "Measures the company\x27s ability to pay short-term obligations." }),
   ("Quick Ratio",
    { value := 1.2, status := "healthy",
      description := "A more stringent measure of liquidity, excluding inventory." }),
   ("Cash Ratio",
    { value := 0.5, status := "warning",
      description := "Measures a company\x27s ability to cover short-term liabilities with cash." })]

/-- The `"Profitability Ratios"` inner dict, lines 164-168. -/
def profitability_entries : List (String × RatioData) :=
  [("Gross Margin",
    { value := 35.0, status := "healthy",
      description := "Percentage of revenue retained after direct costs." }),
   ("Net Profit Margin",
    { value := 8.5, status := "healthy",
      description := "Percentage of revenue that is net income." }),
   ("Return on Equity (ROE)",
    { value := 15.2, status := "healthy",
      description := "Measures profitability relative to shareholders\x27 equity." })]

/-- `get_mock_ratios`, lines 157-169: a function of no inputs returning the
fixed nested dictionary (embedded as an insertion-ordered association list). -/
def get_mock_ratios : List (String × List (String × RatioData)) :=
  [("Liquidity Ratios", liquidity_entries),
   ("Profitability Ratios", profitability_entries)]

/-- Error raised when the bar call is given sequences of different lengths
(matplotlib's ValueError; the spec's InvalidInput). -/
inductive ChartError where
  | InvalidInput
deriving DecidableEq, Repr

/-- One bar of the mock chart: category label, height, fill color. -/
structure Bar where
  category : String
  value : ℚ
  color : String
deriving DecidableEq, Repr

/-- The chart artifact built by `create_mock_bar_chart`, lines 172-186: bars
plus the fixed styling applied to the axes (y label, title, the dashed
horizontal threshold line at y = 1.0 colored `#f44336`). -/
structure Chart where
  bars : List Bar
  ylabel : String
  title : String
  hlineY : ℚ
  hlineColor : String
deriving DecidableEq, Repr

/-- Model of the matplotlib call `ax.bar(categories, values, color=colors)` at
line 177: the library raises (ValueError, embedded as `InvalidInput`) before
drawing anything when the category and value sequences have different lengths;
otherwise it draws one bar per category, the i-th bar filled with the i-th
color (cycling through the color list). -/
def axBar (cats : List String) (vals : List ℚ) (colors : List String) :
    Except ChartError (List Bar) :=
  if cats.length = vals.length then
    Except.ok ((cats.zip vals).enum.map (fun p =>
      { category := p.2.1, value := p.2.2,
        color := colors.getD (p.1 % colors.length) "C0" }))
  else Except.error ChartError.InvalidInput

/-- The hardcoded category labels of line 174. -/
def chartCategories : List String := ["Current Ratio", "Quick Ratio", "Cash Ratio"]

/-- The hardcoded values of line 175. -/
def chartValues : List ℚ := [1.8, 1.2, 0.5]

/-- The hardcoded per-bar colors of line 176. -/
def chartColors : List String := ["#4CAF50", "#4CAF50", "#FF9800"]

/-- The healthy (green) color: used for the first two chart bars (line 176)
and as the `.ratio-healthy` card border color in the style sheet (line 68). -/
def healthyColor : String := "#4CAF50"

/-- The warning (orange) color: used for the third chart bar (line 176) and
as the `.ratio-warning` card border color in the style sheet (line 72). -/
def warningColor : String := "#FF9800"

/-- The body of `create_mock_bar_chart` (lines 172-186) factored over the two
sequences it feeds to the bar call; the styling around the bars is fixed. -/
def create_mock_bar_chart_core (cats : List String) (vals : List ℚ) :
    Except ChartError Chart :=
  (axBar cats vals chartColors).map (fun bars =>
    { bars := bars, ylabel := "Ratio Value", title := "Key Financial Ratios",
      hlineY := 1.0, hlineColor := "#f44336" })

/-- `create_mock_bar_chart`, lines 172-186: takes no arguments and renders the
fixed categories, values and colors of lines 174-176. -/
def create_mock_bar_chart : Except ChartError Chart :=
  create_mock_bar_chart_core chartCategories chartValues

/-- A file handed to the `st.file_uploader` widget: a name and raw bytes.
The content field exists so that independence from it can be stated. -/
structure UploadedFile where
  name : String
  content : List Nat
deriving DecidableEq, Repr

/-- One rendering side effect of the script, in program order. -/
inductive Out where
  | markdown (s : String)
  | image (width : Nat)
  | radio (label : String) (options : List String)
  | fileUploader (label : String) (types : List String)
  | success (s : String)
  | spinner (label : String)
  | sleep (seconds : Nat)
  | info (s : String)
  | button (label : String)
  | selectbox (label : String) (options : List String)
  | ratioCard (statusClass : String) (name : String) (value : ℚ) (descr : String)
  | pyplot (c : Except ChartError Chart)
  | expander (label : String) (body : String)
  | rerun
deriving Repr

/-- True exactly on `st.info` events. -/
def isInfoOut : Out → Bool
  | Out.info _ => true
  | _ => false

/-- The fixed markdown of `home_page` before the uploader (lines 190-229);
long HTML blocks are kept with their text, indentation normalized. -/
def homeCommonOuts : List Out :=
  [Out.markdown "<h1 class=\"main-header\">Simplify Financial Analysis with FinSight</h1>",
   Out.markdown ("<div class=\"card\">\n<h2>Welcome to FinSight</h2>\n<p>FinSight helps founders, CFOs, investors, and consultants analyze financial statements, \nextract key ratios, and visualize insights quickly and accurately.</p>\n</div>"),
   Out.markdown "<h2 class=\"sub-header\">How It Works</h2>",
   Out.markdown ("<div class=\"feature-box\">\n<div class=\"feature-icon\">📄</div>\n<h3>Upload Files</h3>\n<p>Upload balance sheets and income statements in PDF, Excel, or CSV format.</p>\n</div>"),
   Out.markdown ("<div class=\"feature-box\">\n<div class=\"feature-icon\">📊</div>\n<h3>Get Ratios</h3>\n<p>FinSight automatically calculates key financial ratios and metrics.</p>\n</div>"),
   Out.markdown ("<div class=\"feature-box\">\n<div class=\"feature-icon\">📈</div>\n<h3>Visualize Insights</h3>\n<p>View insights through intuitive charts and customizable reports.</p>\n</div>"),
   Out.markdown "<h2 class=\"sub-header\">Upload Your Financial Documents</h2>",
   Out.fileUploader "Upload balance sheets or income statements" ["pdf", "xlsx", "csv"]]

/-- The drag-and-drop placeholder markdown of lines 240-245. -/
def dragDropOut : Out :=
  Out.markdown ("<div style=\"text-align: center; padding: 2rem; background-color: #f8f9fa; border-radius: 10px; border: 1px dashed #ccc;\">\n<p>Drag and drop your files here or click to browse</p>\n<p style=\"font-size: 0.8rem; color: #666;\">Supported formats: PDF, Excel, CSV</p>\n</div>")

/-- `home_page`, lines 189-245.  Besides the session state it takes the two
user inputs the body reads: the uploader's current file (None when nothing is
uploaded) and whether the `View Analysis` button reports a click.  When a file
is present the body echoes `f"File Uploaded: {uploaded_file.name}"`, spins for
the fixed `time.sleep(2)`, shows the completion info, and on a button click
sets `st.session_state.page = "Analysis"` and calls `st.rerun()`. -/
def home_page (uploadedFile : Option UploadedFile) (viewAnalysisClicked : Bool)
    (st : SessionState) : List Out × SessionState :=
  match uploadedFile with
  | some f =>
      let outs := homeCommonOuts ++
        [Out.success ("File Uploaded: " ++ f.name),
         Out.spinner "Analyzing your financial document...",
         Out.sleep 2,
         Out.info "Analysis complete! Navigate to the Analysis page to view results.",
         Out.button "View Analysis"]
      if viewAnalysisClicked then
        (outs ++ [Out.rerun], { st with page := "Analysis" })
      else
        (outs, st)
  | none => (homeCommonOuts ++ [dragDropOut], st)

/-- The `context_descriptions` dict of lines 258-262 (insertion ordered). -/
def context_descriptions : List (String × String) :=
  [("Investor", "Investor Mode: Emphasizes growth metrics and visualizations suitable for pitches."),
   ("Board", "Board Mode: Focuses on comprehensive performance indicators for board meetings."),
   ("Audit", "Audit Mode: Highlights compliance metrics and financial health indicators.")]

/-- The rendering of `analysis_page` (lines 248-292) as a function of the
context-mode selectbox value.  The dict access `context_descriptions[context_mode]`
(line 263) requires the key to be present; the selectbox restricts the value
to the dict's three keys, so the lookup is embedded with a default that is
never reached on those inputs. -/
def analysisOuts (contextMode : String) : List Out :=
  [Out.markdown "<h1 class=\"main-header\">Financial Analysis</h1>",
   Out.markdown "<h2 class=\"sub-header\">Select Context Mode</h2>",
   Out.selectbox "Choose a context mode for your analysis:" ["Investor", "Board", "Audit"],
   Out.info ((context_descriptions.lookup contextMode).getD "KeyError"),
   Out.markdown "<h2 class=\"sub-header\">Key Financial Ratios</h2>"] ++
  (get_mock_ratios.map (fun c =>
    Out.markdown ("<h3>" ++ c.1 ++ "</h3>") ::
      c.2.map (fun e =>
        Out.ratioCard ("ratio-" ++ e.2.status) e.1 e.2.value e.2.description))).flatten ++
  [Out.markdown "<h2 class=\"sub-header\">Visualizations</h2>",
   Out.pyplot create_mock_bar_chart,
   Out.markdown "<h2 class=\"sub-header\">AI-Generated Insights</h2>",
   Out.markdown ("<div class=\"card\">\n<h3>Financial Health Summary</h3>\n<p>Your company shows strong liquidity with a Current Ratio of 1.8. The Gross Margin of 35% is above average.</p>\n<p>Monitor the Cash Ratio (0.5), which indicates limited cash reserves.</p>\n</div>")]

/-- `analysis_page`, lines 248-292: renders and leaves the state unchanged. -/
def analysis_page (contextMode : String) (st : SessionState) : List Out × SessionState :=
  (analysisOuts contextMode, st)

/-- `help_page`, lines 295-318: static markdown and expanders; no state use. -/
def help_page (st : SessionState) : List Out × SessionState :=
  ([Out.markdown "<h1 class=\"main-header\">Help & Support</h1>",
    Out.markdown "<h2 class=\"sub-header\">Frequently Asked Questions</h2>",
    Out.expander "How do I upload files?"
      ("1. Navigate to the Home page.\n2. Click the \"Upload Your Financial Documents\" section.\n3. Drag and drop or browse for files (PDF, Excel, CSV)."),
    Out.expander "What financial ratios are calculated?"
      ("- **Liquidity**: Current Ratio, Quick Ratio, Cash Ratio\n- **Profitability**: Gross Margin, Net Profit Margin, ROE"),
    Out.markdown "<h2 class=\"sub-header\">Contact Us</h2>",
    Out.markdown ("<div class=\"card\">\n<h3>Need help?</h3>\n<p>Email: support@finsight.com</p>\n<p>Phone: (555) 123-4567</p>\n</div>")],
   st)

/-- The footer markdown of lines 329-333, rendered unconditionally. -/
def footerHtml : String :=
  "<div class=\"footer\">\nFinSight Prototype - Version 0.1 - © 2025 FinSight\n</div>"

/-- The user inputs a single script run can read. -/
structure UserInput where
  uploadedFile : Option UploadedFile
  viewAnalysisClicked : Bool
  contextMode : String

/-- The main dispatch of lines 321-326 followed by the footer of lines
329-333: an if/elif chain on `st.session_state.page` with no else branch, so
any other value renders nothing but the footer and leaves the state alone. -/
def dispatch (inp : UserInput) (st : SessionState) : List Out × SessionState :=
  let res :=
    if getPage st = "Home" then home_page inp.uploadedFile inp.viewAnalysisClicked st
    else if getPage st = "Analysis" then analysis_page inp.contextMode st
    else if getPage st = "Help" then help_page st
    else ([], st)
  (res.1 ++ [Out.markdown footerHtml], res.2)

/-- A single state transition of the navigation state machine: either the
sidebar radio sync of lines 148-149 (user selection, any to any) or the Home
page's upload-and-click transition of lines 236-238 (Home to Analysis). -/
inductive NavStep : SessionState → SessionState → Prop where
  | select (i : Fin navOptions.length) (st : SessionState) :
      NavStep st (setPage (navRadio i) st)
  | upload (st : SessionState) (h : st.page = "Home") :
      NavStep st (setPage "Analysis" st)

/-- States of the navigation machine reachable from the initial state by any
sequence of transitions. -/
inductive ReachableNav : SessionState → Prop where
  | init : ReachableNav initState
  | step {s t : SessionState} : ReachableNav s → NavStep s t → ReachableNav t

/-- Claim C1 (counterexample): on the Home view with the file
`balance_sheet.csv` uploaded and the `View Analysis` button not pressed, the
run ends with `currentPage` still `Home`, not `Analysis` — the transition does
not happen merely "after the fixed artificial delay". -/
theorem C1_counterexample :
    (home_page (some { name := "balance_sheet.csv", content := [0] }) false
      { page := "Home" }).2.page = "Home" ∧
    (home_page (some { name := "balance_sheet.csv", content := [0] }) false
      { page := "Home" }).2.page ≠ "Analysis" :=
  ⟨rfl, by decide⟩

/-- Claim C1 (amended): for every uploaded file on the Home view, the run
echoes the file's name in the displayed success message, is independent of the
file's content, performs the fixed `time.sleep(2)` delay, and transitions
`currentPage` to `Analysis` exactly when the `View Analysis` button offered
after the delay is pressed (otherwise the page is unchanged). -/
theorem C1_home_upload (name : String) (content content' : List Nat)
    (clicked : Bool) (st : SessionState) :
    Out.success ("File Uploaded: " ++ name) ∈
      (home_page (some { name := name, content := content }) clicked st).1 ∧
    home_page (some { name := name, content := content }) clicked st =
      home_page (some { name := name, content := content' }) clicked st ∧
    Out.sleep 2 ∈ (home_page (some { name := name, content := content }) clicked st).1 ∧
    (home_page (some { name := name, content := content }) clicked st).2 =
      (if clicked then { st with page := "Analysis" } else st) := by
  cases clicked <;> simp [home_page, homeCommonOuts]

/-- Claim C2 (counterexample): the string `"Bogus"` is outside the three-way
enum, yet the source's assignment `st.session_state.page = page` accepts and
stores it without any error; only the spec's imagined contract
(`setPageChecked`) rejects it.  No InvalidPage failure exists in the code. -/
theorem C2_counterexample :
    ("Bogus" ∉ navOptions) ∧
    setPage "Bogus" { page := "Home" } = { page := "Bogus" } ∧
    setPageChecked "Bogus" { page := "Home" } = Except.error NavError.InvalidPage :=
  ⟨by decide, rfl, by simp [setPageChecked, navOptions]⟩

/-- Claim C2 (amended): the navigation assignment performs no validation and
has no failure path — it stores any string — while the radio widget restricts
the user's input to the three options, so every value the selector actually
produces is inside the enum. -/
theorem C2_nav_no_validation :
    (∀ (p : String) (st : SessionState), (setPage p st).page = p) ∧
    (∀ (i : Fin navOptions.length) (st : SessionState),
      getPage (setPage (navRadio i) st) ∈ navOptions) :=
  ⟨fun _ _ => rfl, fun i _ => List.get_mem navOptions i.1 i.2⟩

/-- Claim C3: the chart renderer's bar step, given category and value
sequences of different lengths, fails with InvalidInput and produces no
(partial) chart; equal lengths are a precondition of success. -/
theorem C3_mismatched_lengths (cats : List String) (vals : List ℚ)
    (h : cats.length ≠ vals.length) :
    create_mock_bar_chart_core cats vals = Except.error ChartError.InvalidInput := by
  simp [create_mock_bar_chart_core, axBar, h, Except.map]

/-- Claim C3 (witness): categories of length 3 with values of length 2 fail
with InvalidInput. -/
theorem C3_mismatched_lengths_witness :
    (["Current Ratio", "Quick Ratio", "Cash Ratio"] : List String).length ≠
      ([1.8, 1.2] : List ℚ).length ∧
    create_mock_bar_chart_core ["Current Ratio", "Quick Ratio", "Cash Ratio"] [1.8, 1.2] =
      Except.error ChartError.InvalidInput :=
  ⟨by decide, C3_mismatched_lengths _ _ (by decide)⟩

/-- Claim C4: the mock bar chart renders the claimed categories and values,
and every bar's color agrees with the threshold rule — values below 1.0 get
the warning color, the others the healthy color — so the third bar is warning
and the first two healthy. -/
theorem C4_threshold_colors :
    ∃ ch, create_mock_bar_chart = Except.ok ch ∧
      ch.bars.map Bar.category = ["Current Ratio", "Quick Ratio", "Cash Ratio"] ∧
      ch.bars.map Bar.value = [1.8, 1.2, 0.5] ∧
      ch.bars.map Bar.color =
        ch.bars.map (fun b => if b.value < 1.0 then warningColor else healthyColor) := by
  refine ⟨{ bars := [{ category := "Current Ratio", value := 1.8, color := "#4CAF50" },
                     { category := "Quick Ratio", value := 1.2, color := "#4CAF50" },
                     { category := "Cash Ratio", value := 0.5, color := "#FF9800" }],
            ylabel := "Ratio Value", title := "Key Financial Ratios",
            hlineY := 1.0, hlineColor := "#f44336" }, ?_, rfl, rfl, ?_⟩
  · rfl
  · norm_num [healthyColor, warningColor]

/-- Claim C5: for every page name inside the enum, reading the navigation
state right after writing it returns the written value. -/
theorem C5_set_get_roundtrip (x : String) (hx : x ∈ navOptions) (st : SessionState) :
    getPage (setPage x st) = x := rfl

/-- Claim C5 (witness): the round trip at `"Analysis"` from the initial
state. -/
theorem C5_set_get_roundtrip_witness :
    ("Analysis" : String) ∈ navOptions ∧ getPage (setPage "Analysis" initState) = "Analysis" :=
  ⟨by decide, C5_set_get_roundtrip "Analysis" (by decide) initState⟩

/-- Claim C6: `get_mock_ratios` is a constant of the embedding (hence pure,
deterministic and total); the returned structure is pinned: the two category
names in order, the three ratio names of each category in order, and their
values and statuses. -/
theorem C6_ratios_static :
    get_mock_ratios.map Prod.fst = ["Liquidity Ratios", "Profitability Ratios"] ∧
    get_mock_ratios.map (fun c => c.2.map Prod.fst) =
      [["Current Ratio", "Quick Ratio", "Cash Ratio"],
       ["Gross Margin", "Net Profit Margin", "Return on Equity (ROE)"]] ∧
    get_mock_ratios.map (fun c => c.2.map (fun e => e.2.value)) =
      [[1.8, 1.2, 0.5], [35.0, 8.5, 15.2]] ∧
    get_mock_ratios.map (fun c => c.2.map (fun e => e.2.status)) =
      [["healthy", "healthy", "warning"], ["healthy", "healthy", "healthy"]] :=
  ⟨rfl, rfl, rfl, rfl⟩

/-- Claim C7: on the Analysis view with context mode `Audit`, the only info
string rendered is exactly the Audit description — the other two modes'
descriptions are not shown — and each of the three modes maps to exactly one
static descriptive string in the dict. -/
theorem C7_audit_mode (st : SessionState) :
    (analysis_page "Audit" st).1.filter isInfoOut =
      [Out.info "Audit Mode: Highlights compliance metrics and financial health indicators."] ∧
    context_descriptions.lookup "Investor" =
      some "Investor Mode: Emphasizes growth metrics and visualizations suitable for pitches." ∧
    context_descriptions.lookup "Board" =
      some "Board Mode: Focuses on comprehensive performance indicators for board meetings." ∧
    context_descriptions.lookup "Audit" =
      some "Audit Mode: Highlights compliance metrics and financial health indicators." :=
  ⟨rfl, rfl, rfl, rfl⟩

/-- Claim C8: the navigation state starts as `Home`, and every state reachable
by any sequence of transitions (sidebar selection any-to-any, or the Home
page's upload transition Home-to-Analysis) has its page inside the three-way
enum. -/
theorem C8_nav_invariant :
    getPage initState = "Home" ∧
    ∀ st : SessionState, ReachableNav st → getPage st ∈ navOptions := by
  refine ⟨rfl, ?_⟩
  intro st h
  induction h with
  | init => decide
  | step hprev hstep ih =>
      cases hstep with
      | select i st => exact List.get_mem navOptions i.1 i.2
      | upload st hpage => exact (by decide : ("Analysis" : String) ∈ navOptions)

/-- Claim C8 (witness): the initial state, and the state reached from it by
the upload transition, both satisfy the invariant. -/
theorem C8_nav_invariant_witness :
    getPage initState = "Home" ∧ getPage (setPage "Analysis" initState) ∈ navOptions :=
  ⟨C8_nav_invariant.1,
   C8_nav_invariant.2 _ (ReachableNav.step ReachableNav.init (NavStep.upload initState rfl))⟩

/-- Claim C9: every ratio entry returned by `get_mock_ratios` has a status
among the three enum values `healthy`, `warning`, `danger`. -/
theorem C9_status_enum :
    ∀ c ∈ get_mock_ratios, ∀ e ∈ c.2, e.2.status ∈ ["healthy", "warning", "danger"] := by
  decide

/-- Claim C9 (witness): the `Cash Ratio` entry of the liquidity category has
status `warning`, which is among the three enum values. -/
theorem C9_status_enum_witness :
    ({ value := 0.5, status := "warning",
       description := "Measures a company\x27s ability to cover short-term liabilities with cash." }
        : RatioData).status ∈ ["healthy", "warning", "danger"] :=
  C9_status_enum ("Liquidity Ratios", liquidity_entries) (by simp [get_mock_ratios])
    ("Cash Ratio",
     { value := 0.5, status := "warning",
       description := "Measures a company\x27s ability to cover short-term liabilities with cash." })
    (by simp [liquidity_entries])

/-- Claim C10: the page dispatch, given a navigation value outside the
three-way enum, invokes no page renderer and does not fail: the run renders
only the footer and leaves the state unchanged. -/
theorem C10_silent_dispatch (inp : UserInput) (st : SessionState)
    (h : getPage st ∉ navOptions) :
    dispatch inp st = ([Out.markdown footerHtml], st) := by
  have h3 : getPage st ≠ "Home" ∧ getPage st ≠ "Analysis" ∧ getPage st ≠ "Help" := by
    simpa [navOptions, not_or] using h
  simp [dispatch, h3.1, h3.2.1, h3.2.2]

/-- Claim C10 (witness): dispatch at the out-of-enum page name `"Dashboard"`
renders only the footer and keeps the state. -/
theorem C10_silent_dispatch_witness :
    dispatch { uploadedFile := none, viewAnalysisClicked := false, contextMode := "Investor" }
      { page := "Dashboard" } = ([Out.markdown footerHtml], { page := "Dashboard" }) :=
  C10_silent_dispatch _ _ (by decide)
